import Mathlib

/-!
Shallow embedding of the mango x86 disassembler core (src/: reg.rs, prefix.rs,
rex.rs, imm.rs, modrm.rs, opcode.rs, inst.rs, reader.rs), with theorems that
settle the frozen claims about it.

Machine integers are modelled as `Nat` (unsigned carriers) and `Int` (signed
carriers), with explicit truncation where Rust performs an `as` cast that can
change the value.  Rust functions that can panic (`unreachable!`, `todo!`,
`panic!`) are modelled in an outcome type with an explicit `crash` result;
fallible functions return the `Ret` error monad mirroring `Result`.
-/

namespace Mango

/-- CPU mode, from modrm.rs `enum Arch`. -/
inductive Arch where
  | Arch16
  | Arch32
  | Arch64
  deriving DecidableEq, Repr, Fintype

/-- Operand sizes, from opcode.rs `enum OpSize`.  The Rust enum derives
`PartialOrd`, so the declaration order below is its total order; `rank`
reproduces that discriminant order. -/
inductive OpSize where
  | U8
  | I8
  | U16
  | I16
  | U32
  | I32
  | U64
  | I64
  | CpuMode
  deriving DecidableEq, Repr

/-- Discriminant of `OpSize`, reproducing the derived `PartialOrd` order. -/
def OpSize.rank : OpSize → Nat
  | .U8 => 0
  | .I8 => 1
  | .U16 => 2
  | .I16 => 3
  | .U32 => 4
  | .I32 => 5
  | .U64 => 6
  | .I64 => 7
  | .CpuMode => 8

/-- Address sizes, from opcode.rs `enum AddrSize`. -/
inductive AddrSize where
  | Addr16Bit
  | Addr32Bit
  | Addr64Bit
  deriving DecidableEq, Repr

/-- opcode.rs `impl From<AddrSize> for OpSize`. -/
def OpSize.from_addrsize : AddrSize → OpSize
  | .Addr16Bit => .U16
  | .Addr32Bit => .U32
  | .Addr64Bit => .U64

/-- opcode.rs `impl From<Arch> for OpSize`. -/
def OpSize.from_arch : Arch → OpSize
  | .Arch16 => .U16
  | .Arch32 => .U32
  | .Arch64 => .U32

/-- opcode.rs `impl From<Arch> for AddrSize`. -/
def AddrSize.from_arch : Arch → AddrSize
  | .Arch16 => .Addr16Bit
  | .Arch32 => .Addr32Bit
  | .Arch64 => .Addr64Bit

/-- The register enumeration, from reg.rs `enum Reg`. -/
inductive Reg where
  | AL | AX | EAX | MM0 | XMM0
  | CL | CX | ECX | MM1 | XMM1
  | DL | DX | EDX | MM2 | XMM2
  | BL | BX | EBX | MM3 | XMM3
  | AH | SP | ESP | MM4 | XMM4
  | CH | BP | EBP | MM5 | XMM5
  | DH | SI | ESI | MM6 | XMM6
  | BH | DI | EDI | MM7 | XMM7
  | RAX | RCX | RDX | RBX | RSP | RBP | RSI | RDI
  | R8 | R9 | R10 | R11 | R12 | R13 | R14 | R15
  | R8b | R9b | R10b | R11b | R12b | R13b | R14b | R15b
  | R8w | R9w | R10w | R11w | R12w | R13w | R14w | R15w
  | R8d | R9d | R10d | R11d | R12d | R13d | R14d | R15d
  | SIL | DIL | SPL | BPL
  deriving DecidableEq, Repr

/-- reg.rs `impl SizedOperand for Reg`. -/
def Reg.size : Reg → OpSize
  | .AL | .CL | .DL | .BL | .SPL | .BPL | .SIL | .DIL
  | .R8b | .R9b | .R10b | .R11b | .R12b | .R13b | .R14b | .R15b => .U8
  | .AX | .CX | .DX | .BX | .SP | .BP | .SI | .DI
  | .R8w | .R9w | .R10w | .R11w | .R12w | .R13w | .R14w | .R15w => .U16
  | .EAX | .ECX | .EDX | .EBX | .ESP | .EBP | .ESI | .EDI
  | .R8d | .R9d | .R10d | .R11d | .R12d | .R13d | .R14d | .R15d => .U32
  | .RAX | .RCX | .RDX | .RBX | .RSP | .RBP | .RSI | .RDI
  | .R8 | .R9 | .R10 | .R11 | .R12 | .R13 | .R14 | .R15 => .U64
  | _ => .CpuMode

/-- Modelled from the spec: `SegmentRegister` is referenced from opcode.rs and
inst.rs (`use crate::reg::SegmentRegister`) but its declaration is not under
src/; the spec (§3, §4.1) lists the six segment registers used by the
segment-override prefixes and PUSH-segment opcodes. -/
inductive SegmentRegister where
  | ES | CS | SS | DS | FS | GS
  deriving DecidableEq, Repr

/-- prefix.rs `enum Group1`. -/
inductive Group1 where
  | Lock
  | RepNE
  | Rep
  deriving DecidableEq, Repr

/-- prefix.rs `enum Group2`. -/
inductive Group2 where
  | CsSegOverride
  | SsSegOverride
  | DsSegOverride
  | EsSegOverride
  | FsSegOverride
  | GsSegOverride
  deriving DecidableEq, Repr

/-- prefix.rs `enum Prefix`. -/
inductive Pfx where
  | Group1 (g : Group1)
  | Group2 (g : Group2)
  | OpSize
  | AddrSize
  deriving DecidableEq, Repr

/-- prefix.rs `impl TryFrom<u8> for Group1` (error collapsed to `none`). -/
def Group1.try_from (value : Nat) : Option Group1 :=
  if value = 0xF0 then some .Lock
  else if value = 0xF2 then some .RepNE
  else if value = 0xF3 then some .Rep
  else none

/-- prefix.rs `impl TryFrom<u8> for Group2` (error collapsed to `none`). -/
def Group2.try_from (value : Nat) : Option Group2 :=
  if value = 0x2E then some .CsSegOverride
  else if value = 0x36 then some .SsSegOverride
  else if value = 0x3E then some .DsSegOverride
  else if value = 0x26 then some .EsSegOverride
  else if value = 0x64 then some .FsSegOverride
  else if value = 0x65 then some .GsSegOverride
  else none

/-- prefix.rs `Prefix::from_byte`. -/
def Pfx.from_byte (value : Nat) : Option Pfx :=
  match Group1.try_from value with
  | some g => some (.Group1 g)
  | none =>
    match Group2.try_from value with
    | some g => some (.Group2 g)
    | none =>
      if value = 0x66 then some .OpSize
      else if value = 0x67 then some .AddrSize
      else none

/-- rex.rs `struct Rex`: the four 1-bit fields, each carried as 0 or 1. -/
structure Rex where
  w : Nat
  r : Nat
  x : Nat
  b : Nat
  deriving DecidableEq, Repr

/-- rex.rs `Rex::from_byte`. -/
def Rex.from_byte (value : Nat) : Option Rex :=
  if 0x40 ≤ value ∧ value ≤ 0x4F then
    some { w := (value >>> 3) &&& 1, r := (value >>> 2) &&& 1,
           x := (value >>> 1) &&& 1, b := value &&& 1 }
  else
    none

/-- reader.rs `enum ReaderError`. -/
inductive ReaderError where
  | NotEnoughBytes
  | TryFromSliceError
  deriving DecidableEq, Repr

/-- reader.rs `struct Reader`: a byte buffer (each entry one byte value) and a
cursor position. -/
structure Reader where
  pos : Nat
  bytes : List Nat
  deriving DecidableEq, Repr

/-- reader.rs `Reader::read_bytes`: returns the `size` bytes at `pos` and the
advanced reader, or `none` (`NotEnoughBytes`) if the buffer is too short. -/
def Reader.read_bytes (r : Reader) (size : Nat) : Option (List Nat × Reader) :=
  if r.pos + size ≤ r.bytes.length then
    some ((r.bytes.drop r.pos).take size, { r with pos := r.pos + size })
  else
    none

/-- reader.rs `Reader::peek_bytes`: as `read_bytes` without advancing. -/
def Reader.peek_bytes (r : Reader) (size : Nat) : Option (List Nat) :=
  if r.pos + size ≤ r.bytes.length then
    some ((r.bytes.drop r.pos).take size)
  else
    none

/-- Little-endian recombination of a byte list, as in the `from_le_bytes`
calls behind reader.rs `read::<uN>()`. -/
def leValue : List Nat → Nat
  | [] => 0
  | b :: rest => b + 256 * leValue rest

/-- Two's-complement reinterpretation of a `width`-byte unsigned value, as in
the `from_le_bytes` calls behind reader.rs `read::<iN>()`. -/
def toSigned (width : Nat) (v : Nat) : Int :=
  if v < 2 ^ (8 * width - 1) then (v : Int) else (v : Int) - 2 ^ (8 * width)

/-- reader.rs `read::<u8>()`. -/
def Reader.readU8 (r : Reader) : Option (Nat × Reader) :=
  match r.read_bytes 1 with
  | some (bs, r') => some (leValue bs, r')
  | none => none

/-- reader.rs `peek::<u8>()`. -/
def Reader.peekU8 (r : Reader) : Option Nat :=
  match r.peek_bytes 1 with
  | some bs => some (leValue bs)
  | none => none

/-- reader.rs `read::<u16>()` (little-endian). -/
def Reader.readU16 (r : Reader) : Option (Nat × Reader) :=
  match r.read_bytes 2 with
  | some (bs, r') => some (leValue bs, r')
  | none => none

/-- reader.rs `read::<u32>()` (little-endian). -/
def Reader.readU32 (r : Reader) : Option (Nat × Reader) :=
  match r.read_bytes 4 with
  | some (bs, r') => some (leValue bs, r')
  | none => none

/-- reader.rs `read::<u64>()` (little-endian). -/
def Reader.readU64 (r : Reader) : Option (Nat × Reader) :=
  match r.read_bytes 8 with
  | some (bs, r') => some (leValue bs, r')
  | none => none

/-- reader.rs `read::<i8>()`. -/
def Reader.readI8 (r : Reader) : Option (Int × Reader) :=
  match r.read_bytes 1 with
  | some (bs, r') => some (toSigned 1 (leValue bs), r')
  | none => none

/-- reader.rs `read::<i16>()` (little-endian). -/
def Reader.readI16 (r : Reader) : Option (Int × Reader) :=
  match r.read_bytes 2 with
  | some (bs, r') => some (toSigned 2 (leValue bs), r')
  | none => none

/-- reader.rs `read::<i32>()` (little-endian). -/
def Reader.readI32 (r : Reader) : Option (Int × Reader) :=
  match r.read_bytes 4 with
  | some (bs, r') => some (toSigned 4 (leValue bs), r')
  | none => none

/-- reg.rs `enum RegFamily` (the source declares only the accumulator family
as a `RegFamily` variant). -/
inductive RegFamily where
  | Accumulator
  deriving DecidableEq, Repr

/-- The per-family width table of reg.rs `trait Gpr` (the five associated
constants of each family implementation). -/
structure GprTable where
  reg8BitLo : Reg
  reg8BitHi : Option Reg
  reg16Bit : Reg
  reg32Bit : Reg
  reg64Bit : Reg
  deriving DecidableEq, Repr

/-- reg.rs `Gpr::from_opsize` (default method of the trait): unmapped sizes
fall back to the 32-bit member. -/
def GprTable.from_opsize (t : GprTable) (op_size : OpSize) : Reg :=
  match op_size with
  | .U8 => t.reg8BitLo
  | .U16 => t.reg16Bit
  | .U32 => t.reg32Bit
  | .U64 => t.reg64Bit
  | _ => t.reg32Bit

/-- reg.rs `impl Gpr for Accumulator`. -/
def Accumulator : GprTable :=
  { reg8BitLo := .AL, reg8BitHi := some .AH, reg16Bit := .AX,
    reg32Bit := .EAX, reg64Bit := .RAX }

/-- reg.rs `impl Gpr for Counter`. -/
def Counter : GprTable :=
  { reg8BitLo := .CL, reg8BitHi := some .CH, reg16Bit := .CX,
    reg32Bit := .ECX, reg64Bit := .RCX }

/-- reg.rs `impl Gpr for Data`. -/
def Data : GprTable :=
  { reg8BitLo := .DL, reg8BitHi := some .DH, reg16Bit := .DX,
    reg32Bit := .EDX, reg64Bit := .RDX }

/-- reg.rs `impl Gpr for Base`. -/
def Base : GprTable :=
  { reg8BitLo := .BL, reg8BitHi := some .BH, reg16Bit := .BX,
    reg32Bit := .EBX, reg64Bit := .RBX }

/-- reg.rs `impl Gpr for StackPointer`. -/
def StackPointer : GprTable :=
  { reg8BitLo := .SPL, reg8BitHi := none, reg16Bit := .SP,
    reg32Bit := .ESP, reg64Bit := .RSP }

/-- reg.rs `impl Gpr for BasePointer`. -/
def BasePointer : GprTable :=
  { reg8BitLo := .BPL, reg8BitHi := none, reg16Bit := .BP,
    reg32Bit := .EBP, reg64Bit := .RBP }

/-- reg.rs `impl Gpr for Source`. -/
def Source : GprTable :=
  { reg8BitLo := .SIL, reg8BitHi := none, reg16Bit := .SI,
    reg32Bit := .ESI, reg64Bit := .RSI }

/-- reg.rs `impl Gpr for Destination`. -/
def Destination : GprTable :=
  { reg8BitLo := .DIL, reg8BitHi := none, reg16Bit := .DI,
    reg32Bit := .EDI, reg64Bit := .RDI }

/-- reg.rs `impl Gpr for R8Reg`. -/
def R8Reg : GprTable :=
  { reg8BitLo := .R8b, reg8BitHi := none, reg16Bit := .R8w,
    reg32Bit := .R8d, reg64Bit := .R8 }

/-- reg.rs `impl Gpr for R9Reg`. -/
def R9Reg : GprTable :=
  { reg8BitLo := .R9b, reg8BitHi := none, reg16Bit := .R9w,
    reg32Bit := .R9d, reg64Bit := .R9 }

/-- reg.rs `impl Gpr for R10Reg`. -/
def R10Reg : GprTable :=
  { reg8BitLo := .R10b, reg8BitHi := none, reg16Bit := .R10w,
    reg32Bit := .R10d, reg64Bit := .R10 }

/-- reg.rs `impl Gpr for R11Reg`. -/
def R11Reg : GprTable :=
  { reg8BitLo := .R11b, reg8BitHi := none, reg16Bit := .R11w,
    reg32Bit := .R11d, reg64Bit := .R11 }

/-- reg.rs `impl Gpr for R12Reg`. -/
def R12Reg : GprTable :=
  { reg8BitLo := .R12b, reg8BitHi := none, reg16Bit := .R12w,
    reg32Bit := .R12d, reg64Bit := .R12 }

/-- reg.rs `impl Gpr for R13Reg`. -/
def R13Reg : GprTable :=
  { reg8BitLo := .R13b, reg8BitHi := none, reg16Bit := .R13w,
    reg32Bit := .R13d, reg64Bit := .R13 }

/-- reg.rs `impl Gpr for R14Reg`. -/
def R14Reg : GprTable :=
  { reg8BitLo := .R14b, reg8BitHi := none, reg16Bit := .R14w,
    reg32Bit := .R14d, reg64Bit := .R14 }

/-- reg.rs `impl Gpr for R15Reg`. -/
def R15Reg : GprTable :=
  { reg8BitLo := .R15b, reg8BitHi := none, reg16Bit := .R15w,
    reg32Bit := .R15d, reg64Bit := .R15 }

/-- reg.rs `RegFamily::reg_from`. -/
def RegFamily.reg_from (f : RegFamily) (op_size : OpSize) : Reg :=
  match f with
  | .Accumulator => GprTable.from_opsize Mango.Accumulator op_size

/-- reg.rs `Reg::convert_with_opsize`.  Rust match arms apply in source
order, so the duplicated patterns of the arm
`Reg::R11b | Reg::R8w | Reg::R8d | Reg::R8 => R8Reg::from_opsize(..)`
leave only `R11b` for that arm (`R8w`, `R8d`, `R8` were already taken by the
R8 arm above it), and `R11w`, `R11d`, `R11` fall through to the final
`_ => unreachable!()` arm together with the MM/XMM and 8-bit-high registers
already consumed by earlier arms.  `none` models that `unreachable!()` panic. -/
def Reg.convert_with_opsize (r : Reg) (op_size : OpSize) : Option Reg :=
  match r with
  | .AL | .AH | .AX | .EAX | .RAX => some (Accumulator.from_opsize op_size)
  | .CL | .CH | .CX | .ECX | .RCX => some (Counter.from_opsize op_size)
  | .DL | .DH | .DX | .EDX | .RDX => some (Data.from_opsize op_size)
  | .BL | .BH | .BX | .EBX | .RBX => some (Base.from_opsize op_size)
  | .SPL | .SP | .ESP | .RSP => some (StackPointer.from_opsize op_size)
  | .BPL | .BP | .EBP | .RBP => some (BasePointer.from_opsize op_size)
  | .SIL | .SI | .ESI | .RSI => some (Source.from_opsize op_size)
  | .DIL | .DI | .EDI | .RDI => some (Destination.from_opsize op_size)
  | .R8b | .R8w | .R8d | .R8 => some (R8Reg.from_opsize op_size)
  | .R9b | .R9w | .R9d | .R9 => some (R9Reg.from_opsize op_size)
  | .R10b | .R10w | .R10d | .R10 => some (R10Reg.from_opsize op_size)
  | .R11b => some (R8Reg.from_opsize op_size)
  | .R12b | .R12w | .R12d | .R12 => some (R12Reg.from_opsize op_size)
  | .R13b | .R13w | .R13d | .R13 => some (R13Reg.from_opsize op_size)
  | .R14b | .R14w | .R14d | .R14 => some (R14Reg.from_opsize op_size)
  | .R15b | .R15w | .R15d | .R15 => some (R15Reg.from_opsize op_size)
  | _ => none

/-- reg.rs `Reg::from_rm16`. -/
def Reg.from_rm16 (value : Nat) : Reg :=
  match value &&& 0b111 with
  | 0 => .AX
  | 1 => .CX
  | 2 => .DX
  | 3 => .BX
  | 4 => .SP
  | 5 => .BP
  | 6 => .SI
  | _ => .DI

/-- reg.rs `Reg::from_rm32`. -/
def Reg.from_rm32 (value : Nat) : Reg :=
  match value &&& 0b111 with
  | 0 => .EAX
  | 1 => .ECX
  | 2 => .EDX
  | 3 => .EBX
  | 4 => .ESP
  | 5 => .EBP
  | 6 => .ESI
  | _ => .EDI

/-- reg.rs `Reg::from_rm64`. -/
def Reg.from_rm64 (value : Nat) : Reg :=
  match value &&& 0b1111 with
  | 0 => .RAX
  | 1 => .RCX
  | 2 => .RDX
  | 3 => .RBX
  | 4 => .RSP
  | 5 => .RBP
  | 6 => .RSI
  | 7 => .RDI
  | 8 => .R8
  | 9 => .R9
  | 10 => .R10
  | 11 => .R11
  | 12 => .R12
  | 13 => .R13
  | 14 => .R14
  | _ => .R15

/-- reg.rs `Reg::from_byte_with_arch`: the architecture defaults to 64-bit
when none is given. -/
def Reg.from_byte_with_arch (value : Nat) (maybe_arch : Option Arch) : Reg :=
  let arch := match maybe_arch with
    | some arch => arch
    | none => Arch.Arch64
  match arch with
  | .Arch16 => Reg.from_rm16 value
  | .Arch32 => Reg.from_rm32 value
  | .Arch64 => Reg.from_rm64 value

/-- imm.rs `enum Displacement`. -/
inductive Displacement where
  | Disp8 (v : Nat)
  | Disp16 (v : Nat)
  | Disp32 (v : Nat)
  | Disp64 (v : Nat)
  deriving DecidableEq, Repr

/-- imm.rs `enum DispArch`. -/
inductive DispArch where
  | Bit8
  | Bit16
  | Bit32
  | Bit64
  deriving DecidableEq, Repr

/-- imm.rs `DispArch::read` (the only error is the propagated reader error,
collapsed to `none`). -/
def DispArch.read (d : DispArch) (r : Reader) : Option (Displacement × Reader) :=
  match d with
  | .Bit8 =>
    match r.readU8 with
    | some (v, r') => some (.Disp8 v, r')
    | none => none
  | .Bit16 =>
    match r.readU16 with
    | some (v, r') => some (.Disp16 v, r')
    | none => none
  | .Bit32 =>
    match r.readU32 with
    | some (v, r') => some (.Disp32 v, r')
    | none => none
  | .Bit64 =>
    match r.readU64 with
    | some (v, r') => some (.Disp64 v, r')
    | none => none

/-- imm.rs `enum Immediate`: unsigned carriers hold a `Nat`, signed carriers
an `Int`. -/
inductive Immediate where
  | ImmU8 (v : Nat)
  | ImmU16 (v : Nat)
  | ImmU32 (v : Nat)
  | ImmU64 (v : Nat)
  | ImmI8 (v : Int)
  | ImmI16 (v : Int)
  | ImmI32 (v : Int)
  | ImmI64 (v : Int)
  deriving DecidableEq, Repr

/-- imm.rs `impl SizedOperand for Immediate`. -/
def Immediate.size : Immediate → OpSize
  | .ImmU8 _ => .U8
  | .ImmU16 _ => .U16
  | .ImmU32 _ => .U32
  | .ImmU64 _ => .U64
  | .ImmI8 _ => .I8
  | .ImmI16 _ => .I16
  | .ImmI32 _ => .I32
  | .ImmI64 _ => .I64

/-- imm.rs `Immediate::parse`: every `OpSize` variant is matched explicitly
in the source, so its trailing `_ => todo!()` arm is dead code; the only
failure is the propagated reader error, collapsed to `none`. -/
def Immediate.parse (op_size : OpSize) (r : Reader) : Option (Immediate × Reader) :=
  match op_size with
  | .U8 | .I8 =>
    match r.readI8 with
    | some (v, r') => some (.ImmI8 v, r')
    | none => none
  | .U16 | .I16 =>
    match r.readI16 with
    | some (v, r') => some (.ImmI16 v, r')
    | none => none
  | .U32 | .I32 | .U64 | .I64 | .CpuMode =>
    match r.readI32 with
    | some (v, r') => some (.ImmI32 v, r')
    | none => none

/-- Rust `as u16` on a signed or unsigned smaller carrier: two's-complement
truncation to 16 bits. -/
def castU16 (v : Int) : Nat := (v % (2 ^ 16 : Int)).toNat

/-- Rust `as u32`: two's-complement truncation to 32 bits. -/
def castU32 (v : Int) : Nat := (v % (2 ^ 32 : Int)).toNat

/-- Rust `as u64`: two's-complement truncation to 64 bits. -/
def castU64 (v : Int) : Nat := (v % (2 ^ 64 : Int)).toNat

/-- imm.rs `Immediate::convert_with_opsize`.  The Rust arm
`OpSize::U64 | OpSize::I32 => ..` repeats `I32`, already taken by the U32/I32
arm above it, so that arm effectively matches only `U64`; `I64` falls through
to the final `_ => self` arm. -/
def Immediate.convert_with_opsize (imm : Immediate) (op_size : OpSize) : Immediate :=
  match op_size with
  | .CpuMode | .U8 | .I8 => imm
  | .U16 | .I16 =>
    match imm with
    | .ImmU8 v => .ImmU16 v
    | .ImmI8 v => .ImmU16 (castU16 v)
    | _ => imm
  | .U32 | .I32 =>
    match imm with
    | .ImmU8 v => .ImmU32 v
    | .ImmI8 v => .ImmU32 (castU32 v)
    | .ImmU16 v => .ImmU32 v
    | .ImmI16 v => .ImmU32 (castU32 v)
    | _ => imm
  | .U64 =>
    match imm with
    | .ImmU8 v => .ImmU64 v
    | .ImmI8 v => .ImmU64 (castU64 v)
    | .ImmU16 v => .ImmU64 v
    | .ImmI16 v => .ImmU64 (castU64 v)
    | .ImmU32 v => .ImmU64 v
    | .ImmI32 v => .ImmU64 (castU64 v)
    | _ => imm
  | .I64 => imm

/-- modrm.rs `enum EffAddrType`. -/
inductive EffAddrType where
  | Reg (r : Mango.Reg)
  | Sib
  | None
  deriving DecidableEq, Repr

/-- modrm.rs `impl SizedOperand for EffAddrType`. -/
def EffAddrType.size : EffAddrType → OpSize
  | .Reg r => r.size
  | _ => .CpuMode

/-- modrm.rs `EffAddrType::convert_with_addrsize`; `none` models the panic
of the inner `Reg::convert_with_opsize` call. -/
def EffAddrType.convert_with_addrsize (e : EffAddrType) (addr_size : AddrSize) :
    Option EffAddrType :=
  match e with
  | .Reg reg =>
    match reg.convert_with_opsize (OpSize.from_addrsize addr_size) with
    | some reg' => some (.Reg reg')
    | none => none
  | .Sib => some .Sib
  | .None => some .None

/-- modrm.rs `struct EffAddr16Bit`. -/
structure EffAddr16Bit where
  maybe_reg1 : Option Reg
  maybe_reg2 : Option Reg
  maybe_disp : Option DispArch
  mod_addr : Nat
  deriving DecidableEq, Repr

/-- modrm.rs `impl From<u8> for EffAddr16Bit`: the fixed 16-bit addressing
table over (`mod`, `r/m`). -/
def EffAddr16Bit.from_byte (value : Nat) : EffAddr16Bit :=
  let r_m := value &&& 0b111
  let mod_addr := (value >>> 6) &&& 0b11
  let eff : Option Reg × Option Reg × Option DispArch :=
    match mod_addr with
    | 0b00 =>
      match r_m with
      | 0b000 => (some .BX, some .SI, none)
      | 0b001 => (some .BX, some .DI, none)
      | 0b010 => (some .BP, some .SI, none)
      | 0b011 => (some .BP, some .DI, none)
      | 0b100 => (some .SI, none, none)
      | 0b101 => (some .DI, none, none)
      | 0b110 => (none, none, some .Bit16)
      | _ => (some .BX, none, none)
    | 0b01 =>
      match r_m with
      | 0b000 => (some .BX, some .SI, some .Bit8)
      | 0b001 => (some .BX, some .DI, some .Bit8)
      | 0b010 => (some .BP, some .SI, some .Bit8)
      | 0b011 => (some .BP, some .DI, some .Bit8)
      | 0b100 => (some .SI, none, some .Bit8)
      | 0b101 => (some .DI, none, some .Bit8)
      | 0b110 => (some .BP, none, some .Bit8)
      | _ => (some .BX, none, some .Bit8)
    | 0b10 =>
      match r_m with
      | 0b000 => (some .BX, some .SI, some .Bit16)
      | 0b001 => (some .BX, some .DI, some .Bit16)
      | 0b010 => (some .BP, some .SI, some .Bit16)
      | 0b011 => (some .BP, some .DI, some .Bit16)
      | 0b100 => (some .SI, none, some .Bit16)
      | 0b101 => (some .DI, none, some .Bit16)
      | 0b110 => (some .BP, none, some .Bit16)
      | _ => (some .BX, none, some .Bit16)
    | _ =>
      match r_m with
      | 0b000 => (some .EAX, none, none)
      | 0b001 => (some .ECX, none, none)
      | 0b010 => (some .EDX, none, none)
      | 0b011 => (some .EBX, none, none)
      | 0b100 => (some .ESP, none, none)
      | 0b101 => (some .EBP, none, none)
      | 0b110 => (some .ESI, none, none)
      | _ => (some .EDI, none, none)
  { maybe_reg1 := eff.1, maybe_reg2 := eff.2.1, maybe_disp := eff.2.2,
    mod_addr := mod_addr }

/-- modrm.rs `struct EffAddr32Bit`. -/
structure EffAddr32Bit where
  eff_addr : EffAddrType
  maybe_disp : Option DispArch
  mod_addr : Nat
  deriving DecidableEq, Repr

/-- modrm.rs `impl From<u8> for EffAddr32Bit`: the fixed 32-bit addressing
table over (`mod`, `r/m`). -/
def EffAddr32Bit.from_byte (value : Nat) : EffAddr32Bit :=
  let r_m := value &&& 0b111
  let mod_addr := (value >>> 6) &&& 0b11
  let eff : EffAddrType × Option DispArch :=
    match mod_addr with
    | 0b00 =>
      match r_m with
      | 0b000 => (.Reg .EAX, none)
      | 0b001 => (.Reg .ECX, none)
      | 0b010 => (.Reg .EDX, none)
      | 0b011 => (.Reg .EBX, none)
      | 0b100 => (.Sib, none)
      | 0b101 => (.None, some .Bit32)
      | 0b110 => (.Reg .ESI, none)
      | _ => (.Reg .EDI, none)
    | 0b01 =>
      match r_m with
      | 0b000 => (.Reg .EAX, some .Bit8)
      | 0b001 => (.Reg .ECX, some .Bit8)
      | 0b010 => (.Reg .EDX, some .Bit8)
      | 0b011 => (.Reg .EBX, some .Bit8)
      | 0b100 => (.Sib, some .Bit8)
      | 0b101 => (.Reg .EBP, some .Bit8)
      | 0b110 => (.Reg .ESI, some .Bit8)
      | _ => (.Reg .EDI, some .Bit8)
    | 0b10 =>
      match r_m with
      | 0b000 => (.Reg .EAX, some .Bit32)
      | 0b001 => (.Reg .ECX, some .Bit32)
      | 0b010 => (.Reg .EDX, some .Bit32)
      | 0b011 => (.Reg .EBX, some .Bit32)
      | 0b100 => (.Sib, some .Bit32)
      | 0b101 => (.Reg .EBP, some .Bit32)
      | 0b110 => (.Reg .ESI, some .Bit32)
      | _ => (.Reg .EDI, some .Bit32)
    | _ =>
      match r_m with
      | 0b000 => (.Reg .EAX, none)
      | 0b001 => (.Reg .ECX, none)
      | 0b010 => (.Reg .EDX, none)
      | 0b011 => (.Reg .EBX, none)
      | 0b100 => (.Reg .ESP, none)
      | 0b101 => (.Reg .EBP, none)
      | 0b110 => (.Reg .ESI, none)
      | _ => (.Reg .EDI, none)
  { eff_addr := eff.1, maybe_disp := eff.2, mod_addr := mod_addr }

/-- modrm.rs `struct EffAddr64Bit`. -/
structure EffAddr64Bit where
  eff_addr : EffAddrType
  maybe_disp : Option DispArch
  mod_addr : Nat
  deriving DecidableEq, Repr

/-- modrm.rs `EffAddr64Bit::from_byte_with_rex`: the REX.B-extended 64-bit
addressing table over (`mod`, 4-bit `r/m`). -/
def EffAddr64Bit.from_byte_with_rex (value : Nat) (maybe_rex : Option Rex) :
    EffAddr64Bit :=
  let r_m := value &&& 0b111
  let r_m := match maybe_rex with
    | some rex => (rex.b <<< 3) ||| r_m
    | none => r_m
  let mod_addr := (value >>> 6) &&& 0b11
  let eff : EffAddrType × Option DispArch :=
    match mod_addr with
    | 0b00 =>
      match r_m with
      | 0b0000 => (.Reg .RAX, none)
      | 0b0001 => (.Reg .RCX, none)
      | 0b0010 => (.Reg .RDX, none)
      | 0b0011 => (.Reg .RBX, none)
      | 0b0100 => (.Sib, none)
      | 0b0101 => (.None, some .Bit32)
      | 0b0110 => (.Reg .RSI, none)
      | 0b0111 => (.Reg .RDI, none)
      | 0b1000 => (.Reg .R8, none)
      | 0b1001 => (.Reg .R9, none)
      | 0b1010 => (.Reg .R10, none)
      | 0b1011 => (.Reg .R11, none)
      | 0b1100 => (.Sib, none)
      | 0b1101 => (.Reg .R13, some .Bit32)
      | 0b1110 => (.Reg .R14, none)
      | _ => (.Reg .R15, none)
    | 0b01 =>
      match r_m with
      | 0b0000 => (.Reg .RAX, some .Bit8)
      | 0b0001 => (.Reg .RCX, some .Bit8)
      | 0b0010 => (.Reg .RDX, some .Bit8)
      | 0b0011 => (.Reg .RBX, some .Bit8)
      | 0b0100 => (.Sib, some .Bit8)
      | 0b0101 => (.Reg .RBP, some .Bit8)
      | 0b0110 => (.Reg .RSI, some .Bit8)
      | 0b0111 => (.Reg .RDI, some .Bit8)
      | 0b1000 => (.Reg .R8, some .Bit8)
      | 0b1001 => (.Reg .R9, some .Bit8)
      | 0b1010 => (.Reg .R10, some .Bit8)
      | 0b1011 => (.Reg .R11, some .Bit8)
      | 0b1100 => (.Sib, some .Bit8)
      | 0b1101 => (.Reg .R13, some .Bit8)
      | 0b1110 => (.Reg .R14, some .Bit8)
      | _ => (.Reg .R15, some .Bit8)
    | 0b10 =>
      match r_m with
      | 0b0000 => (.Reg .RAX, some .Bit32)
      | 0b0001 => (.Reg .RCX, some .Bit32)
      | 0b0010 => (.Reg .RDX, some .Bit32)
      | 0b0011 => (.Reg .RBX, some .Bit32)
      | 0b0100 => (.Sib, some .Bit32)
      | 0b0101 => (.Reg .RBP, some .Bit32)
      | 0b0110 => (.Reg .RSI, some .Bit32)
      | 0b0111 => (.Reg .RDI, some .Bit32)
      | 0b1000 => (.Reg .R8, some .Bit32)
      | 0b1001 => (.Reg .R9, some .Bit32)
      | 0b1010 => (.Reg .R10, some .Bit32)
      | 0b1011 => (.Reg .R11, some .Bit32)
      | 0b1100 => (.Sib, some .Bit32)
      | 0b1101 => (.Reg .R13, some .Bit32)
      | 0b1110 => (.Reg .R14, some .Bit32)
      | _ => (.Reg .R15, some .Bit32)
    | _ =>
      match r_m with
      | 0b0000 => (.Reg .RAX, none)
      | 0b0001 => (.Reg .RCX, none)
      | 0b0010 => (.Reg .RDX, none)
      | 0b0011 => (.Reg .RBX, none)
      | 0b0100 => (.Reg .RSP, none)
      | 0b0101 => (.Reg .RBP, none)
      | 0b0110 => (.Reg .RSI, none)
      | 0b0111 => (.Reg .RDI, none)
      | 0b1000 => (.Reg .R8, none)
      | 0b1001 => (.Reg .R9, none)
      | 0b1010 => (.Reg .R10, none)
      | 0b1011 => (.Reg .R11, none)
      | 0b1100 => (.Reg .R12, none)
      | 0b1101 => (.Reg .R13, none)
      | 0b1110 => (.Reg .R14, none)
      | _ => (.Reg .R15, none)
  { eff_addr := eff.1, maybe_disp := eff.2, mod_addr := mod_addr }

/-- modrm.rs `enum Addressing`. -/
inductive Addressing where
  | EffAddr16Bit (a : Mango.EffAddr16Bit)
  | EffAddr32Bit (a : Mango.EffAddr32Bit)
  | EffAddr64Bit (a : Mango.EffAddr64Bit)
  deriving DecidableEq, Repr

/-- modrm.rs `Addressing::displacement`. -/
def Addressing.displacement : Addressing → Option DispArch
  | .EffAddr16Bit a => a.maybe_disp
  | .EffAddr32Bit a => a.maybe_disp
  | .EffAddr64Bit a => a.maybe_disp

/-- modrm.rs `Addressing::set_displacement`. -/
def Addressing.set_displacement (addr : Addressing) (disp : Option DispArch) :
    Addressing :=
  match addr with
  | .EffAddr16Bit a => .EffAddr16Bit { a with maybe_disp := disp }
  | .EffAddr32Bit a => .EffAddr32Bit { a with maybe_disp := disp }
  | .EffAddr64Bit a => .EffAddr64Bit { a with maybe_disp := disp }

/-- modrm.rs `Addressing::has_sib`. -/
def Addressing.has_sib (addr : Addressing) : Bool :=
  match addr with
  | .EffAddr16Bit _ => false
  | .EffAddr32Bit a => a.eff_addr = EffAddrType.Sib
  | .EffAddr64Bit a => a.eff_addr = EffAddrType.Sib

/-- modrm.rs `Addressing::mod_bits`. -/
def Addressing.mod_bits : Addressing → Nat
  | .EffAddr16Bit a => a.mod_addr
  | .EffAddr32Bit a => a.mod_addr
  | .EffAddr64Bit a => a.mod_addr

/-- modrm.rs `Addressing::rm_mem`; `none` models the explicit
`panic!("Override addressing in 16 bit mode is not implemented")` of the
16-bit arm. -/
def Addressing.rm_mem : Addressing → Option EffAddrType
  | .EffAddr32Bit a => some a.eff_addr
  | .EffAddr64Bit a => some a.eff_addr
  | .EffAddr16Bit _ => none

/-- modrm.rs `Addressing::rm_reg`. -/
def Addressing.rm_reg : Addressing → Option Reg
  | .EffAddr16Bit a => a.maybe_reg1
  | .EffAddr32Bit a =>
    match a.eff_addr with
    | .Reg reg => some reg
    | _ => none
  | .EffAddr64Bit a =>
    match a.eff_addr with
    | .Reg reg => some reg
    | _ => none

/-- modrm.rs `struct ModRM(Reg, Addressing)`. -/
structure ModRM where
  reg0 : Reg
  addressing : Addressing
  deriving DecidableEq, Repr

/-- modrm.rs `ModRM::from_byte_with_arch`: with no architecture the
addressing defaults to the 32-bit table, while the `reg` field is decoded by
`Reg::from_byte_with_arch`, whose own default is 64-bit. -/
def ModRM.from_byte_with_arch (value : Nat) (maybe_arch : Option Arch)
    (maybe_rex : Option Rex) : ModRM :=
  let reg := (value >>> 3) &&& 0b111
  let pair : Nat × Addressing :=
    match maybe_arch with
    | some arch =>
      match arch with
      | .Arch16 => (reg, .EffAddr16Bit (EffAddr16Bit.from_byte value))
      | .Arch32 => (reg, .EffAddr32Bit (EffAddr32Bit.from_byte value))
      | .Arch64 =>
        let addr :=
          Addressing.EffAddr64Bit (EffAddr64Bit.from_byte_with_rex value maybe_rex)
        let reg := match maybe_rex with
          | some rex => (rex.r <<< 3) ||| reg
          | none => reg
        (reg, addr)
    | none => (reg, .EffAddr32Bit (EffAddr32Bit.from_byte value))
  { reg0 := Reg.from_byte_with_arch pair.1 maybe_arch, addressing := pair.2 }

/-- modrm.rs `ModRM::rm_reg`. -/
def ModRM.rm_reg (m : ModRM) : Option Reg := m.addressing.rm_reg

/-- modrm.rs `ModRM::rm_mem` (panic of the 16-bit arm as `none`). -/
def ModRM.rm_mem (m : ModRM) : Option EffAddrType := m.addressing.rm_mem

/-- modrm.rs `ModRM::reg`. -/
def ModRM.reg (m : ModRM) : Reg := m.reg0

/-- modrm.rs `ModRM::mod_bits`. -/
def ModRM.mod_bits (m : ModRM) : Nat := m.addressing.mod_bits

/-- modrm.rs `struct Scale(u8)`. -/
structure Scale where
  val : Nat
  deriving DecidableEq, Repr

/-- modrm.rs `struct Sib32`. -/
structure Sib32 where
  base : Option Reg
  scaled_index : Option Reg
  scale : Option Scale
  deriving DecidableEq, Repr

/-- modrm.rs `impl From<u8> for Sib32`. -/
def Sib32.from_byte (value : Nat) : Sib32 :=
  let scale := (value >>> 6) &&& 0b11
  let idx := (value >>> 3) &&& 0b111
  let base := value &&& 0b111
  let base : Option Reg :=
    match base with
    | 0b000 => some .EAX
    | 0b001 => some .ECX
    | 0b010 => some .EDX
    | 0b011 => some .EBX
    | 0b100 => some .ESP
    | 0b101 => some .EBP
    | 0b110 => some .ESI
    | _ => some .EDI
  let scaled_index : Option Reg × Option Scale :=
    match scale with
    | 0b00 =>
      match idx with
      | 0b000 => (some .EAX, none)
      | 0b001 => (some .ECX, none)
      | 0b010 => (some .EDX, none)
      | 0b011 => (some .EBX, none)
      | 0b100 => (none, none)
      | 0b101 => (some .EBP, none)
      | 0b110 => (some .ESI, none)
      | _ => (some .EDI, none)
    | 0b01 =>
      match idx with
      | 0b000 => (some .EAX, some ⟨2⟩)
      | 0b001 => (some .ECX, some ⟨2⟩)
      | 0b010 => (some .EDX, some ⟨2⟩)
      | 0b011 => (some .EBX, some ⟨2⟩)
      | 0b100 => (none, none)
      | 0b101 => (some .EBP, some ⟨2⟩)
      | 0b110 => (some .ESI, some ⟨2⟩)
      | _ => (some .EDI, some ⟨2⟩)
    | 0b10 =>
      match idx with
      | 0b000 => (some .EAX, some ⟨4⟩)
      | 0b001 => (some .ECX, some ⟨4⟩)
      | 0b010 => (some .EDX, some ⟨4⟩)
      | 0b011 => (some .EBX, some ⟨4⟩)
      | 0b100 => (none, none)
      | 0b101 => (some .EBP, some ⟨4⟩)
      | 0b110 => (some .ESI, some ⟨4⟩)
      | _ => (some .EDI, some ⟨4⟩)
    | _ =>
      match idx with
      | 0b000 => (some .EAX, some ⟨8⟩)
      | 0b001 => (some .ECX, some ⟨8⟩)
      | 0b010 => (some .EDX, some ⟨8⟩)
      | 0b011 => (some .EBX, some ⟨8⟩)
      | 0b100 => (none, none)
      | 0b101 => (some .EBP, some ⟨8⟩)
      | 0b110 => (some .ESI, some ⟨8⟩)
      | _ => (some .EDI, some ⟨8⟩)
  { base := base, scaled_index := scaled_index.1, scale := scaled_index.2 }

/-- modrm.rs `struct Sib64`. -/
structure Sib64 where
  base : Option Reg
  scaled_index : Option Reg
  scale : Option Scale
  deriving DecidableEq, Repr

/-- modrm.rs `Sib64::from_byte_with_rex` (the source's `println!` debug
output has no bearing on the returned value). -/
def Sib64.from_byte_with_rex (value : Nat) (maybe_rex : Option Rex) : Sib64 :=
  let scale := (value >>> 6) &&& 0b11
  let idx := (value >>> 3) &&& 0b111
  let base := value &&& 0b111
  let idx := match maybe_rex with
    | some rex => (rex.x <<< 3) ||| idx
    | none => idx
  let base := match maybe_rex with
    | some rex => (rex.b <<< 3) ||| base
    | none => base
  let base : Option Reg :=
    match base with
    | 0b0000 => some .RAX
    | 0b0001 => some .RCX
    | 0b0010 => some .RDX
    | 0b0011 => some .RBX
    | 0b0100 => some .RSP
    | 0b0101 => some .RBP
    | 0b0110 => some .RSI
    | 0b0111 => some .RDI
    | 0b1000 => some .R8
    | 0b1001 => some .R9
    | 0b1010 => some .R10
    | 0b1011 => some .R11
    | 0b1100 => some .R12
    | 0b1101 => some .R13
    | 0b1110 => some .R14
    | _ => some .R15
  let scaled_index : Option Reg × Option Scale :=
    match scale with
    | 0b00 =>
      match idx with
      | 0b0000 => (some .RAX, none)
      | 0b0001 => (some .RCX, none)
      | 0b0010 => (some .RDX, none)
      | 0b0011 => (some .RBX, none)
      | 0b0100 => (none, none)
      | 0b0101 => (some .RBP, none)
      | 0b0110 => (some .RSI, none)
      | 0b0111 => (some .RDI, none)
      | 0b1000 => (some .R8, none)
      | 0b1001 => (some .R9, none)
      | 0b1010 => (some .R10, none)
      | 0b1011 => (some .R11, none)
      | 0b1100 => (some .R12, none)
      | 0b1101 => (some .R13, none)
      | 0b1110 => (some .R14, none)
      | _ => (some .R15, none)
    | 0b01 =>
      match idx with
      | 0b0000 => (some .RAX, some ⟨2⟩)
      | 0b0001 => (some .RCX, some ⟨2⟩)
      | 0b0010 => (some .RDX, some ⟨2⟩)
      | 0b0011 => (some .RBX, some ⟨2⟩)
      | 0b0100 => (none, none)
      | 0b0101 => (some .RBP, some ⟨2⟩)
      | 0b0110 => (some .RSI, some ⟨2⟩)
      | 0b0111 => (some .RDI, some ⟨2⟩)
      | 0b1000 => (some .R8, some ⟨2⟩)
      | 0b1001 => (some .R9, some ⟨2⟩)
      | 0b1010 => (some .R10, some ⟨2⟩)
      | 0b1011 => (some .R11, some ⟨2⟩)
      | 0b1100 => (some .R12, some ⟨2⟩)
      | 0b1101 => (some .R13, some ⟨2⟩)
      | 0b1110 => (some .R14, some ⟨2⟩)
      | _ => (some .R15, some ⟨2⟩)
    | 0b10 =>
      match idx with
      | 0b0000 => (some .RAX, some ⟨4⟩)
      | 0b0001 => (some .RCX, some ⟨4⟩)
      | 0b0010 => (some .RDX, some ⟨4⟩)
      | 0b0011 => (some .RBX, some ⟨4⟩)
      | 0b0100 => (none, none)
      | 0b0101 => (some .RBP, some ⟨4⟩)
      | 0b0110 => (some .RSI, some ⟨4⟩)
      | 0b0111 => (some .RDI, some ⟨4⟩)
      | 0b1000 => (some .R8, some ⟨4⟩)
      | 0b1001 => (some .R9, some ⟨4⟩)
      | 0b1010 => (some .R10, some ⟨4⟩)
      | 0b1011 => (some .R11, some ⟨4⟩)
      | 0b1100 => (some .R12, some ⟨4⟩)
      | 0b1101 => (some .R13, some ⟨4⟩)
      | 0b1110 => (some .R14, some ⟨4⟩)
      | _ => (some .R15, some ⟨4⟩)
    | _ =>
      match idx with
      | 0b0000 => (some .RAX, some ⟨8⟩)
      | 0b0001 => (some .RCX, some ⟨8⟩)
      | 0b0010 => (some .RDX, some ⟨8⟩)
      | 0b0011 => (some .RBX, some ⟨8⟩)
      | 0b0100 => (none, none)
      | 0b0101 => (some .RBP, some ⟨8⟩)
      | 0b0110 => (some .RSI, some ⟨8⟩)
      | 0b0111 => (some .RDI, some ⟨8⟩)
      | 0b1000 => (some .R8, some ⟨8⟩)
      | 0b1001 => (some .R9, some ⟨8⟩)
      | 0b1010 => (some .R10, some ⟨8⟩)
      | 0b1011 => (some .R11, some ⟨8⟩)
      | 0b1100 => (some .R12, some ⟨8⟩)
      | 0b1101 => (some .R13, some ⟨8⟩)
      | 0b1110 => (some .R14, some ⟨8⟩)
      | _ => (some .R15, some ⟨8⟩)
  { base := base, scaled_index := scaled_index.1, scale := scaled_index.2 }

/-- modrm.rs `enum Sib`. -/
inductive Sib where
  | Sib32 (s : Mango.Sib32)
  | Sib64 (s : Mango.Sib64)
  deriving DecidableEq, Repr

/-- modrm.rs `impl SizedOperand for Sib`. -/
def Sib.size : Sib → OpSize
  | .Sib32 _ => .U32
  | .Sib64 _ => .U64

/-- modrm.rs `Sib::base`. -/
def Sib.base : Sib → Option Reg
  | .Sib32 s => s.base
  | .Sib64 s => s.base

/-- modrm.rs `Sib::set_base`. -/
def Sib.set_base (sib : Sib) (base : Option Reg) : Sib :=
  match sib with
  | .Sib32 s => .Sib32 { s with base := base }
  | .Sib64 s => .Sib64 { s with base := base }

/-- modrm.rs `Sib::convert_with_addrsize`; `none` models the panic of the
inner `Reg::convert_with_opsize` calls. -/
def Sib.convert_with_addrsize (sib : Sib) (addr_size : AddrSize) : Option Sib :=
  let op_size := OpSize.from_addrsize addr_size
  match sib with
  | .Sib32 s => do
    let base ← match s.base with
      | some reg => (reg.convert_with_opsize op_size).map some
      | none => some none
    let scaled_index ← match s.scaled_index with
      | some reg => (reg.convert_with_opsize op_size).map some
      | none => some none
    some (.Sib32 { base := base, scaled_index := scaled_index, scale := s.scale })
  | .Sib64 s => do
    let base ← match s.base with
      | some reg => (reg.convert_with_opsize op_size).map some
      | none => some none
    let scaled_index ← match s.scaled_index with
      | some reg => (reg.convert_with_opsize op_size).map some
      | none => some none
    some (.Sib64 { base := base, scaled_index := scaled_index, scale := s.scale })

/-- opcode.rs `enum OpcodeType`. -/
inductive OpcodeType where
  | Prefix (p : Pfx)
  | Rex (r : Mango.Rex)
  | Add
  | Or
  | Adc
  | Sbb
  | And
  | Sub
  | Cmp
  | Lea
  | Inc
  | Dec
  | CallNear
  | CallFar
  | JmpNear
  | JmpFar
  | Push
  | Xor
  | NeedsModRMExtension (byte : Nat)
  | EndBr32
  | EndBr64
  | Unknown
  deriving DecidableEq, Repr

/-- opcode.rs `enum AddressingMethod`. -/
inductive AddressingMethod where
  | E
  | G
  | I
  | M
  deriving DecidableEq, Repr

/-- opcode.rs `enum OperandType`. -/
inductive OperandType where
  | B
  | D
  | V
  | Z
  deriving DecidableEq, Repr

/-- opcode.rs `enum OperandEncoding`. -/
inductive OperandEncoding where
  | I
  | M
  | O
  | MI
  | MR
  | RM
  | ZO
  deriving DecidableEq, Repr

/-- opcode.rs `enum Operand`. -/
inductive Operand where
  | ModRM (op_size : OpSize) (addr_size : AddrSize)
  | ModReg (op_size : OpSize)
  | Opcode (op_size : OpSize)
  | Immediate (op_size : OpSize)
  | SignedImmediate (op_size : OpSize)
  | Reg (r : Mango.Reg)
  | RegFamily (f : Mango.RegFamily)
  | RegInOpcode (byte : Nat)
  | Segment (s : SegmentRegister)
  deriving DecidableEq, Repr

/-- opcode.rs `Operand::from_map`. -/
def Operand.from_map (addr_meth : AddressingMethod) (op_type : OperandType)
    (arch : Arch) : Operand :=
  let op_size := match op_type with
    | .B => OpSize.U8
    | .V => OpSize.CpuMode
    | .Z =>
      match arch with
      | .Arch16 => OpSize.U16
      | .Arch32 => OpSize.U32
      | .Arch64 => OpSize.U32
    | .D => OpSize.U32
  match addr_meth with
  | .E => .ModRM op_size (AddrSize.from_arch arch)
  | .M => .ModRM op_size (AddrSize.from_arch arch)
  | .G => .ModReg op_size
  | .I => .Immediate op_size

/-- opcode.rs `struct RegFieldExt(u8)`. -/
structure RegFieldExt where
  val : Nat
  deriving DecidableEq, Repr

/-- opcode.rs `impl TryFrom<u8> for RegFieldExt` (error
`RegFieldExtError::CannotConvertFrom` collapsed to `none`). -/
def RegFieldExt.try_from (value : Nat) : Option RegFieldExt :=
  if value ≤ 7 then some ⟨value⟩ else none

/-- opcode.rs `enum OpcodeError`. -/
inductive OpcodeError where
  | ReaderError (e : Mango.ReaderError)
  | InvalidPrefix (p : Pfx)
  | InexistentPrefix
  | InvalidOpcode (b : Nat)
  | Invalid3ByteOpcode (b1 b2 b3 : Nat)
  deriving DecidableEq, Repr

/-- opcode.rs `struct Opcode`. -/
structure Opcode where
  ident : OpcodeType
  operands : List (Option Operand)
  encoding : Option OperandEncoding
  deriving DecidableEq, Repr

/-- Outcome of a fallible computation that may also panic: `ok`/`err`
mirror Rust's `Result`, `crash` models `unreachable!`/`todo!`/`panic!`. -/
inductive Ret (ε : Type) (α : Type) where
  | ok (a : α)
  | err (e : ε)
  | crash
  deriving Repr, DecidableEq

/-- A stateful fallible computation over the byte `Reader`, modelling a Rust
function that takes `&mut Reader` and returns `Result<α, ε>` but may panic. -/
def RetM (ε : Type) (α : Type) : Type := Reader → Ret ε (α × Reader)

instance {ε : Type} : Monad (RetM ε) where
  pure a := fun r => .ok (a, r)
  bind m f := fun r =>
    match m r with
    | .ok (a, r') => f a r'
    | .err e => .err e
    | .crash => .crash

/-- Convert the error of a `RetM` computation, as Rust's `?` does through
`From` impls. -/
def RetM.adapt {ε ε' α : Type} (f : ε → ε') (m : RetM ε α) : RetM ε' α :=
  fun r =>
    match m r with
    | .ok (a, r') => .ok (a, r')
    | .err e => .err (f e)
    | .crash => .crash

/-- `Ret.map`, used to keep the reader state alongside a pure result. -/
def Ret.map {ε α β : Type} (f : α → β) : Ret ε α → Ret ε β
  | .ok a => .ok (f a)
  | .err e => .err e
  | .crash => .crash

/-- `reader.read::<u8>()?` raising `OpcodeError::ReaderError`. -/
def opcReadU8 : RetM OpcodeError Nat := fun r =>
  match r.readU8 with
  | some (b, r') => .ok (b, r')
  | none => .err (.ReaderError .NotEnoughBytes)

/-- opcode.rs `Opcode::from_byte_with_arch`: prefix check, REX check, then
the one-byte opcode map; unmapped bytes fall through to `Unknown`. -/
def Opcode.from_byte_with_arch (byte : Nat) (arch : Arch) : Ret OpcodeError Opcode :=
  match Pfx.from_byte byte with
  | some p => .ok { ident := .Prefix p, operands := [none, none, none, none], encoding := none }
  | none =>
  match Rex.from_byte byte with
  | some rex => .ok { ident := .Rex rex, operands := [none, none, none, none], encoding := none }
  | none =>
  match byte with
  | 0x00 => .ok { ident := .Add, operands := [some (Operand.from_map .E .B arch), some (Operand.from_map .G .B arch), none, none], encoding := some .MR }
  | 0x01 => .ok { ident := .Add, operands := [some (Operand.from_map .E .V arch), some (Operand.from_map .G .V arch), none, none], encoding := some .MR }
  | 0x02 => .ok { ident := .Add, operands := [some (Operand.from_map .G .B arch), some (Operand.from_map .E .B arch), none, none], encoding := some .RM }
  | 0x03 => .ok { ident := .Add, operands := [some (Operand.from_map .G .V arch), some (Operand.from_map .E .V arch), none, none], encoding := some .RM }
  | 0x04 => .ok { ident := .Add, operands := [some (.Reg .AL), some (Operand.from_map .I .B arch), none, none], encoding := some .I }
  | 0x05 => .ok { ident := .Add, operands := [some (.RegFamily .Accumulator), some (Operand.from_map .I .Z arch), none, none], encoding := some .I }
  | 0x06 => .ok { ident := .Push, operands := [some (.Segment .ES), none, none, none], encoding := some .ZO }
  | 0x0e => .ok { ident := .Push, operands := [some (.Segment .CS), none, none, none], encoding := some .ZO }
  | 0x10 => .ok { ident := .Adc, operands := [some (Operand.from_map .E .B arch), some (Operand.from_map .G .B arch), none, none], encoding := some .MR }
  | 0x11 => .ok { ident := .Adc, operands := [some (Operand.from_map .E .V arch), some (Operand.from_map .G .V arch), none, none], encoding := some .MR }
  | 0x12 => .ok { ident := .Adc, operands := [some (Operand.from_map .G .B arch), some (Operand.from_map .E .B arch), none, none], encoding := some .RM }
  | 0x13 => .ok { ident := .Adc, operands := [some (Operand.from_map .G .V arch), some (Operand.from_map .E .V arch), none, none], encoding := some .RM }
  | 0x14 => .ok { ident := .Adc, operands := [some (.Reg .AL), some (Operand.from_map .I .B arch), none, none], encoding := some .I }
  | 0x15 => .ok { ident := .Adc, operands := [some (.RegFamily .Accumulator), some (Operand.from_map .I .Z arch), none, none], encoding := some .I }
  | 0x16 => .ok { ident := .Push, operands := [some (.Segment .SS), none, none, none], encoding := some .ZO }
  | 0x1e => .ok { ident := .Push, operands := [some (.Segment .DS), none, none, none], encoding := some .ZO }
  | 0x20 => .ok { ident := .And, operands := [some (Operand.from_map .E .B arch), some (Operand.from_map .G .B arch), none, none], encoding := some .MR }
  | 0x21 => .ok { ident := .And, operands := [some (Operand.from_map .E .V arch), some (Operand.from_map .G .V arch), none, none], encoding := some .MR }
  | 0x22 => .ok { ident := .And, operands := [some (Operand.from_map .G .B arch), some (Operand.from_map .E .B arch), none, none], encoding := some .RM }
  | 0x23 => .ok { ident := .And, operands := [some (Operand.from_map .G .V arch), some (Operand.from_map .E .V arch), none, none], encoding := some .RM }
  | 0x24 => .ok { ident := .And, operands := [some (.Reg .AL), some (Operand.from_map .I .B arch), none, none], encoding := some .I }
  | 0x25 => .ok { ident := .And, operands := [some (.RegFamily .Accumulator), some (Operand.from_map .I .Z arch), none, none], encoding := some .I }
  | 0x30 => .ok { ident := .Xor, operands := [some (Operand.from_map .E .B arch), some (Operand.from_map .G .B arch), none, none], encoding := some .MR }
  | 0x31 => .ok { ident := .Xor, operands := [some (.ModRM .CpuMode (AddrSize.from_arch arch)), some (.ModReg .CpuMode), none, none], encoding := some .MR }
  | 0x34 => .ok { ident := .Xor, operands := [some (.Reg Mango.Accumulator.reg8BitLo), some (.Immediate .U8), none, none], encoding := some .I }
  | 0x35 => .ok { ident := .Xor, operands := [some (.RegFamily .Accumulator), some (.Immediate .U32), none, none], encoding := some .I }
  | 0x50 | 0x51 | 0x52 | 0x53 | 0x54 | 0x55 | 0x56 | 0x57 => .ok { ident := .Push, operands := [some (.RegInOpcode byte), none, none, none], encoding := some .O }
  | 0x68 => .ok { ident := .Push, operands := [some (Operand.from_map .I .Z arch), none, none, none], encoding := some .I }
  | 0x6A => .ok { ident := .Push, operands := [some (Operand.from_map .I .B arch), none, none, none], encoding := some .I }
  | 0x80 | 0x81 | 0x82 | 0x83 | 0xFF => .ok { ident := .NeedsModRMExtension byte, operands := [none, none, none, none], encoding := none }
  | 0x8D => .ok { ident := .Lea, operands := [some (.ModReg .CpuMode), some (.ModRM .CpuMode (AddrSize.from_arch arch)), none, none], encoding := some .RM }
  | _ => .ok { ident := .Unknown, operands := [none, none, none, none], encoding := none }

/-- opcode.rs `Opcode::convert_with_ext_arch`.  The source returns
`Result<(), OpcodeError>` and mutates `self`; here the mutated opcode is
returned.  `none` models the panics: `unreachable!()` for extension 7 of
byte `0xFF`, and `todo!()` for a `NeedsModRMExtension` byte outside the five
flagged by the table.  The source never produces an `Err`. -/
def Opcode.convert_with_ext_arch (opc : Opcode) (ext : RegFieldExt) (arch : Arch) :
    Option Opcode :=
  let opc := match opc.ident with
    | .NeedsModRMExtension byte =>
      match byte with
      | 0x80 =>
        { opc with
          operands := [some (Operand.from_map .E .B arch), some (Operand.from_map .I .B arch),
                       opc.operands.getD 2 none, opc.operands.getD 3 none],
          encoding := some .MI }
      | 0x81 =>
        { opc with
          operands := [some (Operand.from_map .E .V arch), some (Operand.from_map .I .Z arch),
                       opc.operands.getD 2 none, opc.operands.getD 3 none],
          encoding := some .MI }
      | 0x82 =>
        { opc with
          operands := [some (Operand.from_map .E .B arch), some (Operand.from_map .I .B arch),
                       opc.operands.getD 2 none, opc.operands.getD 3 none],
          encoding := some .MI }
      | 0x83 =>
        { opc with
          operands := [some (Operand.from_map .E .V arch), some (Operand.from_map .I .B arch),
                       opc.operands.getD 2 none, opc.operands.getD 3 none],
          encoding := some .MI }
      | 0xFF =>
        { opc with
          operands := [some (Operand.from_map .E .V arch), opc.operands.getD 1 none,
                       opc.operands.getD 2 none, opc.operands.getD 3 none],
          encoding := some .MI }
      | _ => opc
    | _ => opc
  match opc.ident with
  | .NeedsModRMExtension byte =>
    match byte with
    | 0x80 | 0x81 | 0x82 | 0x83 =>
      (match ext.val with
       | 0 => some { opc with ident := .Add }
       | 1 => some { opc with ident := .Or }
       | 2 => some { opc with ident := .Adc }
       | 3 => some { opc with ident := .Sbb }
       | 4 => some { opc with ident := .And }
       | 5 => some { opc with ident := .Sub }
       | 6 => some { opc with ident := .Xor }
       | 7 => some { opc with ident := .Cmp }
       | _ => none)
    | 0xFF =>
      (match ext.val with
       | 0 => some { opc with ident := .Inc }
       | 1 => some { opc with ident := .Dec }
       | 2 => some { opc with ident := .CallNear }
       | 3 => some { opc with ident := .CallFar }
       | 4 => some { opc with ident := .JmpNear }
       | 5 => some { opc with ident := .JmpFar }
       | 6 => some { opc with ident := .Push }
       | _ => none)
    | _ => none
  | _ => some opc

/-- opcode.rs `Opcode::with_prefix_arch`: reads one byte; on the escape code
`0x0F` it continues per the first accumulated prefix (the `Rep`-prefixed
`0x1E 0xFB/0xFA` three-byte forms decode to EndBr32/EndBr64), otherwise it
defers to the one-byte map. -/
def Opcode.with_prefix_arch (prefixs : List Pfx) (arch : Arch) :
    RetM OpcodeError Opcode := do
  let first_byte ← opcReadU8
  match first_byte with
  | 0x0F =>
    match prefixs with
    | [] => do
      let second_byte ← opcReadU8
      match second_byte with
      | 0xA0 => pure { ident := .Push, operands := [some (.Segment .FS), none, none, none],
                       encoding := some .ZO }
      | 0xA8 => pure { ident := .Push, operands := [some (.Segment .GS), none, none, none],
                       encoding := some .ZO }
      | _ => fun _ => .err (.InvalidOpcode second_byte)
    | pfx :: _ =>
      match pfx with
      | .Group1 gr1 =>
        match gr1 with
        | .RepNE => pure { ident := .Unknown, operands := [none, none, none, none],
                           encoding := none }
        | .Rep => do
          let second_byte ← opcReadU8
          match second_byte with
          | 0x1E => do
            let third_byte ← opcReadU8
            match third_byte with
            | 0xFB => pure { ident := .EndBr32, operands := [none, none, none, none],
                             encoding := some .ZO }
            | 0xFA => pure { ident := .EndBr64, operands := [none, none, none, none],
                             encoding := some .ZO }
            | _ => fun _ => .err (.Invalid3ByteOpcode first_byte second_byte third_byte)
          | _ => pure { ident := .Unknown, operands := [none, none, none, none],
                        encoding := none }
        | _ => fun _ => .err (.InvalidPrefix pfx)
      | .OpSize => pure { ident := .Unknown, operands := [none, none, none, none],
                          encoding := none }
      | _ => fun _ => .err (.InvalidPrefix pfx)
  | _ => fun r => (Opcode.from_byte_with_arch first_byte arch).map (·, r)

/-- imm.rs `enum DispError`. -/
inductive DispError where
  | ReaderError (e : Mango.ReaderError)
  deriving DecidableEq, Repr

/-- imm.rs `enum ImmError`. -/
inductive ImmError where
  | ReaderError (e : Mango.ReaderError)
  deriving DecidableEq, Repr

/-- opcode.rs `enum RegFieldExtError`. -/
inductive RegFieldExtError where
  | CannotConvertFrom (v : Nat)
  deriving DecidableEq, Repr

/-- inst.rs `enum InstructionError`. -/
inductive InstructionError where
  | OpcodeError (e : Mango.OpcodeError)
  | ReaderError (e : Mango.ReaderError)
  | RegFieldExtError (e : Mango.RegFieldExtError)
  | DispError (e : Mango.DispError)
  | ImmError (e : Mango.ImmError)
  | InvalidModRMError
  deriving DecidableEq, Repr

/-- inst.rs `enum ResolvedOperand`. -/
inductive ResolvedOperand where
  | Immediate (imm : Mango.Immediate)
  | Reg (r : Mango.Reg)
  | Segment (s : SegmentRegister)
  | Mem (m : EffAddrType × Option Sib × Option Displacement)
  | ToBeDecided
  deriving DecidableEq, Repr

/-- inst.rs `impl SizedOperand for ResolvedOperand`. -/
def ResolvedOperand.size : ResolvedOperand → OpSize
  | .Immediate imm => imm.size
  | .Reg r => r.size
  | .Mem (eff_addr, maybe_sib, _) =>
    let eff_addr_size := eff_addr.size
    (match eff_addr_size with
     | .CpuMode =>
       match maybe_sib with
       | some sib => sib.size
       | none => eff_addr_size
     | _ => eff_addr_size)
  | _ => .CpuMode

/-- inst.rs `struct InstOperands`. -/
structure InstOperands where
  op_size : OpSize
  operands : List (Option ResolvedOperand)
  deriving DecidableEq, Repr

/-- inst.rs `struct Instruction`. -/
structure Instruction where
  prefixs : List Pfx
  rex : Option Rex
  opcode : Opcode
  modrm : Option ModRM
  sib : Option Sib
  disp : Option Displacement
  imm : Option Immediate
  operands : InstOperands
  deriving DecidableEq, Repr

/-- Modelled from the spec: `OpSize::from_cpu_opcode` is called at
inst.rs:297 but is not defined under src/.  Spec §4.7 step 5 says operand
resolution "start[s] from the CPU-mode default" operand size (16-bit mode →
16-bit, 32/64-bit modes → 32-bit, as opcode.rs `impl From<Arch> for OpSize`
states); the opcode-identity argument is carried but the spec specifies no
identity-dependent change to that starting default for the covered opcodes. -/
def OpSize.from_cpu_opcode (cpu_mode : Arch) (_ident : OpcodeType) : OpSize :=
  OpSize.from_arch cpu_mode

/-- Modelled from the spec: `RegFamily::from(u8)` is called at inst.rs:376
but is not defined under src/.  Spec §4.7 maps the register number to its
family; src's `RegFamily` declares only the accumulator family, so every
number lands there. -/
def RegFamily.from_byte (_value : Nat) : RegFamily := .Accumulator

/-- Modelled from the spec: `RegFamily::reg_from_arch` is called at
inst.rs:377 but is not defined under src/.  Spec §4.7 (RegInOpcode): after
deriving the architecture, do a "register-family lookup", i.e. take the
family member at that architecture's register width. -/
def RegFamily.reg_from_arch (f : RegFamily) (arch : Arch) : Reg :=
  match arch with
  | .Arch16 => f.reg_from .U16
  | .Arch32 => f.reg_from .U32
  | .Arch64 => f.reg_from .U64

/-- `reader.read::<u8>()?` raising `InstructionError::ReaderError`. -/
def instReadU8 : RetM InstructionError Nat := fun r =>
  match r.readU8 with
  | some (b, r') => .ok (b, r')
  | none => .err (.ReaderError .NotEnoughBytes)

/-- `reader.peek::<u8>()?` raising `InstructionError::ReaderError`. -/
def instPeekU8 : RetM InstructionError Nat := fun r =>
  match r.peekU8 with
  | some b => .ok (b, r)
  | none => .err (.ReaderError .NotEnoughBytes)

/-- Lift an `Option` whose `none` is a Rust panic into the monad. -/
def orCrash {ε α : Type} (o : Option α) : RetM ε α := fun r =>
  match o with
  | some a => .ok (a, r)
  | none => .crash

/-- Rust's `Option::ok_or(err)?`. -/
def okOr {ε α : Type} (e : ε) (o : Option α) : RetM ε α := fun r =>
  match o with
  | some a => .ok (a, r)
  | none => .err e

/-- `Opcode::with_prefix_arch(..)?` with its error converted into
`InstructionError` as by the `From` impl. -/
def withPrefixArchI (prefixs : List Pfx) (arch : Arch) : RetM InstructionError Opcode :=
  RetM.adapt InstructionError.OpcodeError (Opcode.with_prefix_arch prefixs arch)

/-- `disp_arch.read(reader)?` with its error converted into
`InstructionError`. -/
def dispReadI (d : DispArch) : RetM InstructionError Displacement := fun r =>
  match d.read r with
  | some (v, r') => .ok (v, r')
  | none => .err (.DispError (.ReaderError .NotEnoughBytes))

/-- `Immediate::parse(.., reader)?` with its error converted into
`InstructionError`. -/
def immParseI (op_size : OpSize) : RetM InstructionError Immediate := fun r =>
  match Immediate.parse op_size r with
  | some (v, r') => .ok (v, r')
  | none => .err (.ImmError (.ReaderError .NotEnoughBytes))

/-- The per-operand effective-operand-size computation of inst.rs lines
309-334: the `OperandSizeOverride` prefix replaces the running size by the
mode's alternate, then REX.W=1 unconditionally forces `U64`. -/
def opSizeOverrideStep (prefixs : List Pfx) (cpu_mode : Arch)
    (maybe_rex : Option Rex) (cur : OpSize) : OpSize :=
  let cur := if Pfx.OpSize ∈ prefixs then
      match cpu_mode with
      | .Arch16 => OpSize.U32
      | .Arch32 => OpSize.U16
      | .Arch64 => OpSize.U16
    else cur
  match maybe_rex with
  | some rex => if rex.w = 1 then OpSize.U64 else cur
  | none => cur

/-- The per-operand effective-address-size computation of inst.rs lines
320-326; `none` models the `panic!("Instruction is illegal with the
prefix")` arm for 16-bit mode. -/
def addrSizeOverrideStep (prefixs : List Pfx) (cpu_mode : Arch)
    (cur : AddrSize) : Option AddrSize :=
  if Pfx.AddrSize ∈ prefixs then
    match cpu_mode with
    | .Arch32 => some .Addr32Bit
    | .Arch64 => some .Addr32Bit
    | .Arch16 => none
  else some cur

/-- The operand-resolution loop of inst.rs lines 303-440, processing the
four operand slots in order.  `acc` holds the already-filled slots, so the
slot being processed has index `acc.length` and the previous resolved
operand is `acc.getLast?`. -/
def resolveOperandsLoop (prefixs : List Pfx) (cpu_mode : Arch)
    (maybe_rex : Option Rex) (maybe_modrm : Option ModRM)
    (maybe_sib : Option Sib) (maybe_disp : Option Displacement) :
    List (Option Operand) → List (Option ResolvedOperand) → OpSize → AddrSize →
    RetM InstructionError (List (Option ResolvedOperand) × OpSize × AddrSize)
  | [], acc, op_size_override, addr_size_override =>
    pure (acc, op_size_override, addr_size_override)
  | op :: rest, acc, op_size_override, addr_size_override =>
    match op with
    | none =>
      resolveOperandsLoop prefixs cpu_mode maybe_rex maybe_modrm maybe_sib maybe_disp
        rest (acc ++ [none]) op_size_override addr_size_override
    | some operand => do
      let op_size_override := opSizeOverrideStep prefixs cpu_mode maybe_rex op_size_override
      let addr_size_override ←
        orCrash (addrSizeOverrideStep prefixs cpu_mode addr_size_override)
      let overridable_op_size := [OpSize.CpuMode, OpSize.U16, OpSize.U32, OpSize.U64]
      let overridable_addr_size := [AddrSize.Addr64Bit]
      let resolved : ResolvedOperand ←
        match operand with
        | .Immediate op_size => do
          let imm ← immParseI
            (if op_size ∈ overridable_op_size then op_size_override else op_size)
          let imm := match acc.getLast? with
            | some (some res_op) =>
              let previous_op_size := res_op.size
              if imm.size.rank < previous_op_size.rank then
                imm.convert_with_opsize previous_op_size
              else imm
            | _ => imm
          pure (.Immediate imm)
        | .RegInOpcode opcode_byte => do
          let lower_3bits := opcode_byte &&& 0b111
          let reg_64bit_encoding := match maybe_rex with
            | some rex => lower_3bits ||| (rex.b <<< 3)
            | none => lower_3bits
          let arch := match cpu_mode, op_size_override with
            | .Arch16, .U16 => Arch.Arch16
            | .Arch32, .U16 => Arch.Arch16
            | .Arch64, .U16 => Arch.Arch16
            | .Arch32, .U32 => Arch.Arch32
            | .Arch64, .U32 => Arch.Arch64
            | .Arch64, .U64 => Arch.Arch64
            | _, _ => Arch.Arch64
          let reg_family := RegFamily.from_byte reg_64bit_encoding
          pure (.Reg (reg_family.reg_from_arch arch))
        | .RegFamily family => pure (.Reg (family.reg_from op_size_override))
        | .Segment seg_reg => pure (.Segment seg_reg)
        | .Reg reg => pure (.Reg reg)
        | .ModRM op_size addr_size => do
          let modrm ← okOr InstructionError.InvalidModRMError maybe_modrm
          if modrm.mod_bits = 0b11 then do
            let reg ← okOr InstructionError.InvalidModRMError modrm.rm_reg
            let reg ← orCrash (reg.convert_with_opsize
              (if op_size ∈ overridable_op_size then op_size_override else op_size))
            pure (.Reg reg)
          else do
            let mem ← orCrash modrm.rm_mem
            if addr_size ∈ overridable_addr_size then do
              let eff_addr ← orCrash (mem.convert_with_addrsize addr_size_override)
              let sib ← match maybe_sib with
                | some inner_sib => do
                  let s ← orCrash (inner_sib.convert_with_addrsize addr_size_override)
                  pure (some s)
                | none => pure (none : Option Sib)
              pure (.Mem (eff_addr, sib, maybe_disp))
            else do
              let eff_addr ← orCrash (mem.convert_with_addrsize addr_size)
              let sib ← match maybe_sib with
                | some inner_sib => do
                  let s ← orCrash (inner_sib.convert_with_addrsize addr_size)
                  pure (some s)
                | none => pure (none : Option Sib)
              pure (.Mem (eff_addr, sib, maybe_disp))
        | .ModReg op_size => do
          let modrm ← okOr InstructionError.InvalidModRMError maybe_modrm
          let reg := modrm.reg
          let reg ← orCrash (reg.convert_with_opsize
            (if op_size ∈ overridable_op_size then op_size_override else op_size))
          pure (.Reg reg)
        | _ => pure .ToBeDecided
      resolveOperandsLoop prefixs cpu_mode maybe_rex maybe_modrm maybe_sib maybe_disp
        rest (acc ++ [some resolved]) op_size_override addr_size_override

/-- The prefix-accumulation loop of inst.rs lines 165-174: while the parsed
opcode is a legacy prefix, push it and parse again, breaking after the third
accumulated prefix.  `fuel` is `3 - prefix_idx`. -/
def prefixLoop (fuel : Nat) (prefixs : List Pfx) (cpu_mode : Arch)
    (first_opcode : Opcode) : RetM InstructionError (List Pfx × Opcode) :=
  match first_opcode.ident, fuel with
  | .Prefix opPfx, Nat.succ f => do
    let prefixs := prefixs ++ [opPfx]
    let next ← withPrefixArchI prefixs cpu_mode
    if f = 0 then pure (prefixs, next)
    else prefixLoop f prefixs cpu_mode next
  | _, _ => pure (prefixs, first_opcode)

/-- Everything `Instruction::from_reader` (inst.rs lines 147-440) computes
before the final `Instruction` literal is assembled. -/
structure CoreOut where
  prefixs : List Pfx
  rex : Option Rex
  opcode : Opcode
  modrm : Option ModRM
  sib : Option Sib
  disp : Option Displacement
  resolved : List (Option ResolvedOperand)
  op_size : OpSize
  deriving DecidableEq, Repr

/-- inst.rs `Instruction::from_reader`, lines 147-440: prefix scan, REX
check, ModR/M-extension resolution, ModR/M / SIB / displacement reads and
the operand-resolution loop. -/
def fromReaderCore (maybe_arch : Option Arch) : RetM InstructionError CoreOut := do
  let prefixs : List Pfx := []
  let cpu_mode := match maybe_arch with
    | some arch => arch
    | none => Arch.Arch32
  let first_opcode ← withPrefixArchI prefixs cpu_mode
  let (prefixs, first_opcode) ← prefixLoop 3 prefixs cpu_mode first_opcode
  let second_opcode ← match first_opcode.ident with
    | .Prefix _ => withPrefixArchI prefixs cpu_mode
    | _ => pure first_opcode
  let (maybe_rex, third_opcode) ← match second_opcode.ident with
    | .Rex op_rex => do
      let o ← withPrefixArchI prefixs cpu_mode
      pure (some op_rex, o)
    | _ => pure ((none : Option Rex), second_opcode)
  let ident := third_opcode.ident
  let third_opcode ← match ident with
    | .NeedsModRMExtension _ => do
      let modrm_byte ← instPeekU8
      let reg := (modrm_byte >>> 3) &&& 0b111
      let ext ← okOr (InstructionError.RegFieldExtError (.CannotConvertFrom reg))
        (RegFieldExt.try_from reg)
      orCrash (third_opcode.convert_with_ext_arch ext cpu_mode)
    | _ => pure third_opcode
  let modrm_encodings := [OperandEncoding.M, OperandEncoding.MI,
                          OperandEncoding.MR, OperandEncoding.RM]
  let (maybe_modrm, maybe_sib, maybe_disp) ←
    match third_opcode.encoding with
    | some encoding =>
      if encoding ∈ modrm_encodings then do
        let modrm_byte ← instReadU8
        let modrm := ModRM.from_byte_with_arch modrm_byte maybe_arch maybe_rex
        let (modrm, maybe_sib) ← match maybe_arch with
          | some arch =>
            match arch with
            | .Arch32 =>
              if modrm.addressing.has_sib then do
                let sib_byte ← instReadU8
                let sib := Sib.Sib32 (Sib32.from_byte sib_byte)
                let (modrm, sib) :=
                  if modrm.mod_bits = 0b00 ∧ sib.base = some Reg.EBP then
                    ({ modrm with addressing :=
                         modrm.addressing.set_displacement (some .Bit32) },
                     sib.set_base none)
                  else (modrm, sib)
                pure (modrm, some sib)
              else pure (modrm, (none : Option Sib))
            | .Arch64 =>
              if modrm.addressing.has_sib then do
                let sib_byte ← instReadU8
                let sib := Sib.Sib64 (Sib64.from_byte_with_rex sib_byte maybe_rex)
                let (modrm, sib) :=
                  if modrm.mod_bits = 0b00 ∧ sib.base = some Reg.RBP then
                    ({ modrm with addressing :=
                         modrm.addressing.set_displacement (some .Bit32) },
                     sib.set_base none)
                  else (modrm, sib)
                pure (modrm, some sib)
              else pure (modrm, (none : Option Sib))
            | .Arch16 => pure (modrm, (none : Option Sib))
          | none => pure (modrm, (none : Option Sib))
        let maybe_disp ← match modrm.addressing.displacement with
          | some disp_arch => do
            let displacement ← dispReadI disp_arch
            pure (some displacement)
          | none => pure (none : Option Displacement)
        pure (some modrm, maybe_sib, maybe_disp)
      else pure ((none : Option ModRM), (none : Option Sib), (none : Option Displacement))
    | none => pure ((none : Option ModRM), (none : Option Sib), (none : Option Displacement))
  let op_size_override := OpSize.from_cpu_opcode cpu_mode third_opcode.ident
  let addr_size_override := AddrSize.from_arch cpu_mode
  let (resolved_operands, op_size_override, _) ←
    resolveOperandsLoop prefixs cpu_mode maybe_rex maybe_modrm maybe_sib maybe_disp
      third_opcode.operands [] op_size_override addr_size_override
  pure { prefixs := prefixs, rex := maybe_rex, opcode := third_opcode,
         modrm := maybe_modrm, sib := maybe_sib, disp := maybe_disp,
         resolved := resolved_operands, op_size := op_size_override }

/-- inst.rs `Instruction::from_reader`: the core computation above followed
by the `Instruction` literal of lines 442-451; `maybe_imm` is the local of
line 289, initialized to `None` and never reassigned. -/
def Instruction.from_reader (r : Reader) (maybe_arch : Option Arch) :
    Ret InstructionError (Instruction × Reader) :=
  match fromReaderCore maybe_arch r with
  | .ok (d, r') =>
    let maybe_imm : Option Immediate := none
    .ok ({ prefixs := d.prefixs, rex := d.rex, opcode := d.opcode,
           modrm := d.modrm, sib := d.sib, disp := d.disp, imm := maybe_imm,
           operands := { op_size := d.op_size, operands := d.resolved } }, r')
  | .err e => .err e
  | .crash => .crash

/-! ## Helper observers used by the claim statements -/

/-- Project the decoded instruction out of a `from_reader` outcome. -/
def Ret.okInst {ε : Type} : Ret ε (Instruction × Reader) → Option Instruction
  | .ok (i, _) => some i
  | _ => none

/-- Project the final cursor position out of a `from_reader` outcome. -/
def Ret.okPos {ε : Type} : Ret ε (Instruction × Reader) → Option Nat
  | .ok (_, r) => some r.pos
  | _ => none

/-- The extension→mnemonic table the spec states for opcode bytes 0x80-0x83. -/
def ext8083Ident (ext : Fin 8) : OpcodeType :=
  match ext.val with
  | 0 => .Add
  | 1 => .Or
  | 2 => .Adc
  | 3 => .Sbb
  | 4 => .And
  | 5 => .Sub
  | 6 => .Xor
  | _ => .Cmp

/-- The extension→mnemonic table the spec states for opcode byte 0xFF
(extensions 0-6). -/
def extFFIdent (ext : Fin 8) : OpcodeType :=
  match ext.val with
  | 0 => .Inc
  | 1 => .Dec
  | 2 => .CallNear
  | 3 => .CallFar
  | 4 => .JmpNear
  | 5 => .JmpFar
  | _ => .Push

/-- The byte values carrying a dedicated arm in the one-byte opcode map of
`Opcode::from_byte_with_arch` (everything else falls to `Unknown`). -/
def mappedOpcodeBytes : List Nat :=
  [0x00, 0x01, 0x02, 0x03, 0x04, 0x05, 0x06, 0x0e,
   0x10, 0x11, 0x12, 0x13, 0x14, 0x15, 0x16, 0x1e,
   0x20, 0x21, 0x22, 0x23, 0x24, 0x25,
   0x30, 0x31, 0x34, 0x35,
   0x50, 0x51, 0x52, 0x53, 0x54, 0x55, 0x56, 0x57,
   0x68, 0x6A, 0x80, 0x81, 0x82, 0x83, 0x8D, 0xFF]

/-- Whether an immediate is held in one of the unsigned carriers. -/
def Immediate.isUnsignedCarrier : Immediate → Bool
  | .ImmU8 _ | .ImmU16 _ | .ImmU32 _ | .ImmU64 _ => true
  | _ => false

/-! ## Claims -/

set_option maxRecDepth 100000

/-- C1: the claim says `Instruction::from_reader` never panics — that every
`panic!`/`unreachable!`/`todo!` branch in the decode path is unreachable from
the public entry point.  The code contradicts it: the two-byte buffer
`[0xFF, 0x38]` (opcode `0xFF` with ModR/M extension field 7) drives
`Opcode::convert_with_ext_arch` into its `unreachable!()` arm; in 16-bit
mode `[0x00, 0x06, 0x00, 0x00]` reaches the `panic!` inside
`Addressing::rm_mem`, and `[0x67, 0x04, 0x01]` the `panic!` on the
`AddressSizeOverride` prefix.  All three decodes crash instead of returning
an error. -/
theorem fromReader_panic_reachable :
    Instruction.from_reader ⟨0, [0xFF, 0x38]⟩ (some .Arch64) = .crash ∧
    Instruction.from_reader ⟨0, [0x00, 0x06, 0x00, 0x00]⟩ (some .Arch16) = .crash ∧
    Instruction.from_reader ⟨0, [0x67, 0x04, 0x01]⟩ (some .Arch16) = .crash :=
  ⟨rfl, rfl, rfl⟩

/-- C2 counterexample: the SIB byte `0x20` (scale=0b00, index bits 100,
base 000) decoded by `Sib64::from_byte_with_rex` under a REX with X=1 yields
the scaled index R12, not "no scaled index" — so the ESP/RSP no-index rule
does not hold "regardless of REX.X". -/
theorem sib64_rex_x_gives_r12_index :
    (Sib64.from_byte_with_rex 0x20 (some ⟨0, 0, 1, 0⟩)).scaled_index = some Reg.R12 ∧
    ¬ (Sib64.from_byte_with_rex 0x20 (some ⟨0, 0, 1, 0⟩)).scaled_index = none := by
  decide

/-- C2 (amended): for every SIB byte whose index field has low 3 bits
0b100 and every scale value, the decoded Sib has no scaled index and no
scale factor in the 32-bit decoder, and in the 64-bit decoder when no REX
byte is present or the REX has X=0; with REX.X=1 the index instead resolves
to R12. -/
theorem sib_esp_slot_no_index :
    (∀ b : Fin 256, (b.val >>> 3) &&& 0b111 = 0b100 →
      (Sib32.from_byte b.val).scaled_index = none ∧
      (Sib32.from_byte b.val).scale = none) ∧
    (∀ b : Fin 256, (b.val >>> 3) &&& 0b111 = 0b100 →
      (Sib64.from_byte_with_rex b.val none).scaled_index = none ∧
      (Sib64.from_byte_with_rex b.val none).scale = none) ∧
    (∀ b : Fin 256, ∀ w r bb : Fin 2, (b.val >>> 3) &&& 0b111 = 0b100 →
      (Sib64.from_byte_with_rex b.val (some ⟨w.val, r.val, 0, bb.val⟩)).scaled_index = none ∧
      (Sib64.from_byte_with_rex b.val (some ⟨w.val, r.val, 0, bb.val⟩)).scale = none) ∧
    (∀ b : Fin 256, ∀ w r bb : Fin 2, (b.val >>> 3) &&& 0b111 = 0b100 →
      (Sib64.from_byte_with_rex b.val (some ⟨w.val, r.val, 1, bb.val⟩)).scaled_index = some Reg.R12) := by
  refine ⟨?_, ?_, ?_, ?_⟩ <;> decide

/-- C2 witness: instantiating the no-index rule at SIB byte 0xE4
(scale=0b11, index=100, base=100), with and without a REX. -/
theorem sib_esp_slot_no_index_witness :
    (Sib32.from_byte 0xE4).scaled_index = none ∧
    (Sib64.from_byte_with_rex 0xE4 (some ⟨1, 1, 0, 1⟩)).scaled_index = none :=
  ⟨(sib_esp_slot_no_index.1 ⟨0xE4, by decide⟩ (by decide)).1,
   (sib_esp_slot_no_index.2.2.1 ⟨0xE4, by decide⟩ 1 1 1 (by decide)).1⟩

/-- C3: the claim says `Reg::convert_with_opsize` succeeds for every
general-purpose register, including R8-R15 at all four widths, returning
the width-S member of the same family.  The code contradicts it: the match
arm for the R11 family reads `R11b | R8w | R8d | R8`, so `R11w`, `R11d` and
`R11` fall into the `unreachable!()` arm (a panic), and `R11b` converts
into the R8 family.  The non-R11 families behave as claimed (AL at U32
gives EAX). -/
theorem convert_with_opsize_r11_broken :
    Reg.convert_with_opsize .R11 .U32 = none ∧
    Reg.convert_with_opsize .R11w .U16 = none ∧
    Reg.convert_with_opsize .R11d .U64 = none ∧
    Reg.convert_with_opsize .R11b .U32 = some .R8d ∧
    Reg.convert_with_opsize .AL .U32 = some .EAX ∧
    Reg.convert_with_opsize .R12 .U8 = some .R12b := by
  decide

/-- C4: the ModR/M-extension resolution table.  Bytes 0x80-0x83 are flagged
`NeedsModRMExtension` by the one-byte map and, for every extension value
0-7 and every architecture, `convert_with_ext_arch` resolves the identity
through the fixed table 0→Add, 1→Or, 2→Adc, 3→Sbb, 4→And, 5→Sub, 6→Xor,
7→Cmp with operand encoding MI; byte 0xFF is likewise flagged, and
extensions 0-6 resolve to 0→Inc, 1→Dec, 2→CallNear, 3→CallFar, 4→JmpNear,
5→JmpFar, 6→Push. -/
theorem convert_with_ext_resolves_table :
    (∀ byte : Fin 256, byte.val ∈ [0x80, 0x81, 0x82, 0x83] →
      ∀ ext : Fin 8, ∀ arch : Arch,
      Opcode.from_byte_with_arch byte.val arch =
        .ok { ident := .NeedsModRMExtension byte.val,
              operands := [none, none, none, none], encoding := none } ∧
      ((Opcode.mk (.NeedsModRMExtension byte.val) [none, none, none, none]
          none).convert_with_ext_arch ⟨ext.val⟩ arch).map (·.ident) =
        some (ext8083Ident ext) ∧
      ((Opcode.mk (.NeedsModRMExtension byte.val) [none, none, none, none]
          none).convert_with_ext_arch ⟨ext.val⟩ arch).map (·.encoding) =
        some (some .MI)) ∧
    (∀ ext : Fin 8, ext.val ≤ 6 → ∀ arch : Arch,
      Opcode.from_byte_with_arch 0xFF arch =
        .ok { ident := .NeedsModRMExtension 0xFF,
              operands := [none, none, none, none], encoding := none } ∧
      ((Opcode.mk (.NeedsModRMExtension 0xFF) [none, none, none, none]
          none).convert_with_ext_arch ⟨ext.val⟩ arch).map (·.ident) =
        some (extFFIdent ext)) := by
  constructor <;> decide

/-- C4 witness: instantiating the table at byte 0x83 with extension 6
(Xor/MI) and at byte 0xFF with extension 2 (CallNear). -/
theorem convert_with_ext_resolves_table_witness :
    ((Opcode.mk (.NeedsModRMExtension 0x83) [none, none, none, none]
        none).convert_with_ext_arch ⟨6⟩ .Arch64).map (·.ident) =
      some .Xor ∧
    ((Opcode.mk (.NeedsModRMExtension 0xFF) [none, none, none, none]
        none).convert_with_ext_arch ⟨2⟩ .Arch64).map (·.ident) =
      some .CallNear :=
  ⟨(convert_with_ext_resolves_table.1 ⟨0x83, by decide⟩ (by decide) 6 .Arch64).2.1,
   (convert_with_ext_resolves_table.2 2 (by decide) .Arch64).2⟩

/-- C5 counterexample: widening `ImmI8 (-1)` to 16 bits and then to 32 bits
gives `ImmU32 0xFFFF`, while widening it directly to 32 bits gives
`ImmU32 0xFFFFFFFF` — the two-step and direct widenings disagree, because
the first step re-carries the sign-extended value in an unsigned carrier. -/
theorem imm_widen_two_step_differs :
    ((Immediate.ImmI8 (-1)).convert_with_opsize .U16).convert_with_opsize .U32 ≠
      (Immediate.ImmI8 (-1)).convert_with_opsize .U32 := by
  decide

/-- C5 (amended): `Immediate::convert_with_opsize` at the value's own size
is a no-op for every immediate; and the composition law
`widen(w2) then widen(w3) = widen(w3)` (for w1 ≤ w2 ≤ w3 in the declared
`OpSize` order) holds for immediates held in unsigned carriers, for
targets w3 other than I64 and CpuMode (at which the conversion is the
identity).  For sign-carried values the first widening re-carries them
unsigned, and the counterexample above shows the law then fails. -/
theorem imm_widen_noop_and_unsigned_composition :
    (∀ imm : Immediate, imm.convert_with_opsize imm.size = imm) ∧
    (∀ (imm : Immediate) (w2 w3 : OpSize),
      imm.isUnsignedCarrier = true →
      imm.size.rank ≤ w2.rank → w2.rank ≤ w3.rank →
      w3 ≠ .I64 → w3 ≠ .CpuMode →
      (imm.convert_with_opsize w2).convert_with_opsize w3 =
        imm.convert_with_opsize w3) := by
  constructor
  · intro imm
    cases imm <;> rfl
  · intro imm w2 w3 hu h12 h23 h3a h3b
    cases imm <;> simp [Immediate.isUnsignedCarrier] at hu <;>
      cases w2 <;> cases w3 <;>
      simp_all [Immediate.convert_with_opsize, Immediate.size, OpSize.rank]

/-- C5 witness: instantiating the no-op at `ImmU16 7` and the composition
at `ImmU8 5` with targets U16 then U32. -/
theorem imm_widen_noop_and_unsigned_composition_witness :
    (Immediate.ImmU16 7).convert_with_opsize .U16 = .ImmU16 7 ∧
    ((Immediate.ImmU8 5).convert_with_opsize .U16).convert_with_opsize .U32 =
      (Immediate.ImmU8 5).convert_with_opsize .U32 :=
  ⟨imm_widen_noop_and_unsigned_composition.1 (.ImmU16 7),
   imm_widen_noop_and_unsigned_composition.2 (.ImmU8 5) .U16 .U32 (by decide)
     (by decide) (by decide) (by decide) (by decide)⟩

/-- C6: the one-byte opcode map is total — every byte that is not a legacy
prefix, not a REX byte, and not one of the mapped opcode bytes resolves to
`Ok` with identity `Unknown`, no operands and no encoding, in every
architecture. -/
theorem unmapped_byte_is_unknown :
    ∀ b : Fin 256, ∀ arch : Arch,
      Pfx.from_byte b.val = none →
      Rex.from_byte b.val = none →
      b.val ∉ mappedOpcodeBytes →
      Opcode.from_byte_with_arch b.val arch =
        .ok { ident := .Unknown, operands := [none, none, none, none],
              encoding := none } := by
  decide

/-- C6 witness: byte 0x90 in 64-bit mode decodes to `Unknown`. -/
theorem unmapped_byte_is_unknown_witness :
    Opcode.from_byte_with_arch 0x90 .Arch64 =
      .ok { ident := .Unknown, operands := [none, none, none, none],
            encoding := none } :=
  unmapped_byte_is_unknown ⟨0x90, by decide⟩ .Arch64 (by decide) (by decide)
    (by decide)

/-- C7: REX.W precedence.  The per-operand effective-operand-size
computation of `Instruction::from_reader` (run once for every resolved
operand, embedded as `opSizeOverrideStep`) yields the 64-bit size whenever
a REX with W=1 was parsed — for every accumulated prefix list (whether or
not it contains `OperandSizeOverride`), every CPU mode and every incoming
size.  Concretely, `[0x66, 0x48, 0x31, 0xC0]` (operand-size override and
REX.W=1) decodes with 64-bit operand size and RAX operands. -/
theorem rex_w_forces_64bit_op_size :
    (∀ (prefixs : List Pfx) (cpu_mode : Arch) (rex : Rex) (cur : OpSize),
      rex.w = 1 →
      opSizeOverrideStep prefixs cpu_mode (some rex) cur = OpSize.U64) ∧
    ((Instruction.from_reader ⟨0, [0x66, 0x48, 0x31, 0xC0]⟩
        (some .Arch64)).okInst.map (·.operands.op_size) = some .U64 ∧
     (Instruction.from_reader ⟨0, [0x66, 0x48, 0x31, 0xC0]⟩
        (some .Arch64)).okInst.map (·.operands.operands) =
       some [some (.Reg .RAX), some (.Reg .RAX), none, none]) := by
  refine ⟨?_, by decide, by decide⟩
  intro prefixs cpu_mode rex cur h
  simp [opSizeOverrideStep, h]

/-- C7 witness: the step applied with the `OperandSizeOverride` prefix
present, in 64-bit mode, with REX.W=1, starting from a 32-bit size. -/
theorem rex_w_forces_64bit_op_size_witness :
    opSizeOverrideStep [Pfx.OpSize] .Arch64 (some ⟨1, 0, 0, 0⟩) .U32 =
      OpSize.U64 :=
  rex_w_forces_64bit_op_size.1 [Pfx.OpSize] .Arch64 ⟨1, 0, 0, 0⟩ .U32 rfl

/-- C8: the byte sequence `F3 0F 1E FA` in 64-bit mode decodes to EndBr64
with zero-operand encoding, no resolved operands, consuming exactly 4
bytes; with final byte `FB` it decodes to EndBr32. -/
theorem endbr_decodes :
    (Instruction.from_reader ⟨0, [0xF3, 0x0F, 0x1E, 0xFA]⟩
       (some .Arch64)).okInst.map (·.opcode.ident) = some .EndBr64 ∧
    (Instruction.from_reader ⟨0, [0xF3, 0x0F, 0x1E, 0xFA]⟩
       (some .Arch64)).okInst.map (·.opcode.encoding) = some (some .ZO) ∧
    (Instruction.from_reader ⟨0, [0xF3, 0x0F, 0x1E, 0xFA]⟩
       (some .Arch64)).okInst.map (·.operands.operands) =
      some [none, none, none, none] ∧
    (Instruction.from_reader ⟨0, [0xF3, 0x0F, 0x1E, 0xFA]⟩
       (some .Arch64)).okPos = some 4 ∧
    (Instruction.from_reader ⟨0, [0xF3, 0x0F, 0x1E, 0xFB]⟩
       (some .Arch64)).okInst.map (·.opcode.ident) = some .EndBr32 ∧
    (Instruction.from_reader ⟨0, [0xF3, 0x0F, 0x1E, 0xFB]⟩
       (some .Arch64)).okPos = some 4 := by
  decide

/-- C9: every successful decode returns an instruction whose dedicated
`imm` field is `None` — `Instruction::from_reader` initializes the local to
`None` and never assigns it, so immediates live only in the resolved
operand array. -/
theorem from_reader_imm_field_none :
    ∀ (r : Reader) (maybe_arch : Option Arch) (inst : Instruction)
      (r' : Reader),
      Instruction.from_reader r maybe_arch = .ok (inst, r') →
      inst.imm = none := by
  intro r maybe_arch inst r' h
  unfold Instruction.from_reader at h
  cases hc : fromReaderCore maybe_arch r with
  | ok p =>
    obtain ⟨d, r''⟩ := p
    rw [hc] at h
    cases h
    rfl
  | err e => rw [hc] at h; cases h
  | crash => rw [hc] at h; cases h

/-- C9 witness: applying the invariant to the concrete decode of the byte
`0x90` in 32-bit mode. -/
theorem from_reader_imm_field_none_witness :
    ({ prefixs := [], rex := none,
       opcode := { ident := .Unknown, operands := [none, none, none, none],
                   encoding := none },
       modrm := none, sib := none, disp := none, imm := none,
       operands := { op_size := .U32,
                     operands := [none, none, none, none] } } :
      Instruction).imm = none :=
  from_reader_imm_field_none ⟨0, [0x90]⟩ (some .Arch32) _ ⟨1, [0x90]⟩ rfl

/-- C10: `ModRM::from_byte_with_arch` with no architecture decodes the
addressing form from the 32-bit table while decoding the reg field through
`Reg::from_byte_with_arch`, whose `None` default is 64-bit — so for every
ModR/M byte (and whatever REX is passed) the reg component is one of the
64-bit registers RAX-RDI while the r/m side is 32-bit addressing. -/
theorem modrm_none_arch_defaults_disagree :
    (∀ (value : Fin 256) (maybe_rex : Option Rex),
      ModRM.from_byte_with_arch value.val none maybe_rex =
        { reg0 := Reg.from_rm64 ((value.val >>> 3) &&& 0b111),
          addressing := .EffAddr32Bit (EffAddr32Bit.from_byte value.val) }) ∧
    (∀ value : Fin 256,
      Reg.from_rm64 ((value.val >>> 3) &&& 0b111) ∈
        [Reg.RAX, Reg.RCX, Reg.RDX, Reg.RBX, Reg.RSP, Reg.RBP, Reg.RSI,
         Reg.RDI]) := by
  refine ⟨fun value maybe_rex => rfl, by decide⟩

end Mango
